import Mathlib

/-!
Verification of the ESP32-CAM dual-network firmware
(src/ESP32_Cam_Dual_Network.ino) against its natural-language specification.

The firmware's control logic is embedded faithfully; its external
collaborators are modelled as inputs:

* the WiFi radio's successive `WiFi.status()` polls become a trace
  `wifi : Nat → Bool` (true = WL_CONNECTED);
* the camera driver's `esp_camera_fb_get` results and the HTTP client's
  `connected()` checks become per-iteration inputs to the stream loop;
* the JPEG encoder `frame2jpg` becomes a parameter
  `enc : FrameBuf → Nat → Option (List Nat)` (frame, quality ↦ bytes);
* Arduino's `String::toFloat` / `String::toInt` become parameters, since
  only which field is written matters to the properties below.

Effects of the stream handler (writes to the client, buffer releases,
encoder invocations, delays) are recorded as an `Action` trace.
-/

namespace Esp32Cam

/-- Pixel formats relevant to the stream handler: PIXFORMAT_JPEG versus the
non-JPEG formats the camera may be initialised with (src 90, 100, 106). -/
inductive PixFormat where
  | jpeg
  | rgb565
  | yuv422
deriving DecidableEq

/-- A camera frame buffer (camera_fb_t): pixel format plus payload bytes;
the driver's `len` field is `buf.length` here. -/
structure FrameBuf where
  format : PixFormat
  buf : List Nat
deriving DecidableEq

/-- Observable actions of handleStream: a write to the client channel, a
buffer release back to the camera driver (esp_camera_fb_return), a heap
free of an encoder output (free), an encoder invocation with its quality
argument (frame2jpg), and a delay in milliseconds. -/
inductive Action where
  | send : List Nat → Action
  | fbReturn : FrameBuf → Action
  | freeBuf : List Nat → Action
  | encodeCall : FrameBuf → Nat → Action
  | delayMs : Nat → Action
deriving DecidableEq

/-- Bytes of an ASCII header string as written to the channel. -/
def strBytes (s : String) : List Nat := s.data.map Char.toNat

/-- The one-off response preamble of handleStream (src 288-290). -/
def streamPreambleStr : String :=
  "HTTP/1.1 200 OK\r\nContent-Type: multipart/x-mixed-replace; boundary=frame\r\n\r\n"

/-- The per-frame part header (src 320-322); n is the jpg_size value. -/
def partHeaderStr (n : Nat) : String :=
  "--frame\r\nContent-Type: image/jpeg\r\nContent-Length: " ++ Nat.repr n ++ "\r\n\r\n"

/-- The part trailer written after the payload (src 333). -/
def crlfStr : String := "\r\n"

/-- The chunked payload writes of handleStream (src 326-331): for
i = 0, 4096, 8192, ... the handler writes min(4096, n - i) bytes starting
at offset i. -/
def chunkWrites (l : List Nat) : List (List Nat) :=
  (List.range ((l.length + 4095) / 4096)).map
    (fun k => ((l.drop (k * 4096)).take 4096))

/-- One multipart part as emitted for a JPEG payload (src 320-333): the part
header with Content-Length, the payload in chunks of at most 4096 bytes,
and the trailing CRLF. -/
def partActions (payload : List Nat) : List Action :=
  (Action.send (strBytes (partHeaderStr payload.length))
      :: (chunkWrites payload).map Action.send)
    ++ [Action.send (strBytes crlfStr)]

/-- One iteration of the stream loop body (src 293-344). `none` models
esp_camera_fb_get returning NULL; enc models frame2jpg. The action order
follows the source: on a non-JPEG frame the encoder is invoked at quality
80 and the hardware buffer is returned (src 305-307) before any part data
is sent; on encoder failure only a 100 ms backoff follows (src 309-313);
after a part is sent, the cleanup block (src 336-342) returns the hardware
buffer when it is still held, else frees the encoder output. -/
def streamIter (enc : FrameBuf → Nat → Option (List Nat)) :
    Option FrameBuf → List Action
  | none => [Action.delayMs 100]
  | some fb =>
    if fb.format ≠ PixFormat.jpeg then
      match enc fb 80 with
      | none => [Action.encodeCall fb 80, Action.fbReturn fb, Action.delayMs 100]
      | some out =>
          Action.encodeCall fb 80 :: Action.fbReturn fb ::
            (partActions out ++ [Action.freeBuf out, Action.delayMs 100])
    else partActions fb.buf ++ [Action.fbReturn fb, Action.delayMs 100]

/-- One loop-condition check of the stream loop: the channel's connected
status at that check, and the capture result if the body runs. -/
structure IterInput where
  connected : Bool
  capture : Option FrameBuf
deriving DecidableEq

/-- The `while (client.connected())` loop of handleStream (src 292-345),
driven by the trace of condition checks and capture results. -/
def runStream (enc : FrameBuf → Nat → Option (List Nat)) :
    List IterInput → List Action
  | [] => []
  | e :: rest =>
    if e.connected then streamIter enc e.capture ++ runStream enc rest else []

/-- handleStream (src 285-346): the preamble once, then the stream loop. -/
def handleStream (enc : FrameBuf → Nat → Option (List Nat))
    (ins : List IterInput) : List Action :=
  Action.send (strBytes streamPreambleStr) :: runStream enc ins

def isSend : Action → Bool
  | Action.send _ => true
  | _ => false

/-- The channel writes of an action trace, in order. -/
def sends (acts : List Action) : List (List Nat) :=
  acts.filterMap (fun a => match a with | Action.send bs => some bs | _ => none)

/-- Occurrence count of one action in a trace. -/
def countA (a : Action) (acts : List Action) : Nat :=
  (acts.filter (fun x => decide (x = a))).length

/-! ## Connectivity state machine -/

/-- MAX_CONNECTION_ATTEMPTS (src 43). -/
def MAX_CONNECTION_ATTEMPTS : Nat := 20

/-- The status-probe loop pattern
`while (WiFi.status() != WL_CONNECTED && attempts < max) { delay(500); attempts++; }`
shared by connectToWiFi (src 134-138, max 20) and loop (src 222-226,
max 10). `wifi` gives the successive status polls, `remaining` is
max − attempts, `p` the index of the next poll. Returns the final attempts
counter (the number of 500 ms probe waits performed) and the index of the
next status poll after the loop. -/
def joinLoop (wifi : Nat → Bool) : Nat → Nat → Nat → Nat × Nat
  | 0, attempts, p => (attempts, p + 1)
  | r + 1, attempts, p =>
    if wifi p = true then (attempts, p + 1)
    else joinLoop wifi r (attempts + 1) (p + 1)

/-- Result of connectToWiFi: whether the final status check succeeded, and
how many 500 ms probe waits were performed. -/
structure JoinResult where
  ok : Bool
  probes : Nat
deriving DecidableEq

/-- connectToWiFi (src 126-151): WiFi.begin, the probe loop, and the final
status check that decides the return value. -/
def connectToWiFi (wifi : Nat → Bool) : JoinResult :=
  let r := joinLoop wifi MAX_CONNECTION_ATTEMPTS 0 0
  { ok := wifi r.2, probes := r.1 }

/-- WiFi radio mode as set by WiFi.mode() (src 159, 164, 169). -/
inductive WifiMode where
  | sta
  | ap
  | apSta
deriving DecidableEq

/-- Network-shaping events performed during setup (src 158-177): mode
changes, the soft-AP start, and each 500 ms probe wait of the initial join. -/
inductive NetEvent where
  | setMode : WifiMode → NetEvent
  | softAPStart : NetEvent
  | probeDelay : Nat → NetEvent
deriving DecidableEq

/-- The network part of setup (src 158-177): STA-only mode, the initial join
attempt (one probeDelay 500 per probe wait inside connectToWiFi), then
AP_STA mode on success or AP-only mode on failure, and in either case the
soft AP is started. -/
def setupEvents (wifi : Nat → Bool) : List NetEvent :=
  let r := connectToWiFi wifi
  (NetEvent.setMode WifiMode.sta
      :: List.replicate r.probes (NetEvent.probeDelay 500))
    ++ (if r.ok then [NetEvent.setMode WifiMode.apSta, NetEvent.softAPStart]
        else [NetEvent.setMode WifiMode.ap, NetEvent.softAPStart])

/-- Radio state: the current mode and whether WiFi.softAP has been issued. -/
structure RadioState where
  mode : WifiMode
  apStarted : Bool
deriving DecidableEq

def radioStep (s : RadioState) : NetEvent → RadioState
  | NetEvent.setMode m => { s with mode := m }
  | NetEvent.softAPStart => { s with apStarted := true }
  | NetEvent.probeDelay _ => s

/-- The self-hosted AP network is reachable when softAP has been started and
the radio mode includes the AP interface. -/
def apActive (s : RadioState) : Bool :=
  s.apStarted && (s.mode == WifiMode.ap || s.mode == WifiMode.apSta)

/-- Radio state at power-on: no soft AP yet. -/
def radioInit : RadioState := { mode := WifiMode.sta, apStarted := false }

def radioAfter (evs : List NetEvent) : RadioState := evs.foldl radioStep radioInit

/-- apActive sampled at each probeDelay event of a trace, starting from s. -/
def apStatesAtProbes (s : RadioState) : List NetEvent → List Bool
  | [] => []
  | NetEvent.probeDelay d :: rest =>
      apActive s :: apStatesAtProbes (radioStep s (NetEvent.probeDelay d)) rest
  | e :: rest => apStatesAtProbes (radioStep s e) rest

/-- The connectedToWiFi flag, the only persistent connectivity state that
loop() reads and writes (src 65, 216, 236). -/
structure LoopState where
  connectedToWiFi : Bool
deriving DecidableEq

/-- The network-maintenance part of one loop() invocation (src 215-238):
when the flag is set and the status poll reports the link down, the
handler calls WiFi.reconnect() and runs the blocking probe loop (at most
10 probes of 500 ms) followed by a final status check, all within this one
invocation. Returns the new state and the number of probe waits performed. -/
def loopNetwork (wifi : Nat → Bool) (st : LoopState) : LoopState × Nat :=
  if st.connectedToWiFi && !(wifi 0) then
    let r := joinLoop wifi 10 0 1
    if wifi r.2 then (st, r.1)
    else ({ connectedToWiFi := false }, r.1)
  else (st, 0)

/-- Repeated loop() invocations; each element of ws gives the status polls
of one invocation. Returns the final state and the total probe waits. -/
def runLoop : LoopState → List (Nat → Bool) → LoopState × Nat
  | st, [] => (st, 0)
  | st, w :: ws =>
    let r := loopNetwork w st
    let rest := runLoop r.1 ws
    (rest.1, r.2 + rest.2)

/-! ## Sensor-update handler -/

/-- Stored sensor values (struct SensorData, src 49-53). Temperature and
humidity hold the abstract result of the external String-to-float
conversion; waterSensor that of String-to-int. -/
structure SensorData where
  temperature : Rat
  humidity : Rat
  waterSensor : Int
deriving DecidableEq

/-- The mutable state handleUpdateSensor touches: the sensor struct and the
lastDataReceived timestamp (src 56, 59). -/
structure UpdState where
  sensor : SensorData
  lastDataReceived : Nat
deriving DecidableEq

/-- An HTTP response as produced by server.send. -/
structure HttpResponse where
  status : Nat
  contentType : List Char
  body : List Char
deriving DecidableEq

/-- needle occurs in hay starting at position i. -/
def occursAt (needle hay : List Char) (i : Nat) : Bool :=
  needle.isPrefixOf (hay.drop i)

/-- Arduino String.indexOf(needle, start): the index of the first occurrence
of needle at a position ≥ start, or -1. -/
def indexOfFrom (hay needle : List Char) (start : Nat) : Int :=
  match (List.range (hay.length + 1)).find?
      (fun i => decide (start ≤ i) && occursAt needle hay i) with
  | some i => (i : Int)
  | none => -1

/-- needle occurs somewhere in hay. -/
def hasSub (hay needle : List Char) : Bool :=
  (List.range (hay.length + 1)).any (fun i => occursAt needle hay i)

/-- Arduino String.substring(a, b): the characters in positions [a, b). -/
def substrOf (l : List Char) (a b : Nat) : List Char := (l.drop a).take (b - a)

def tempKey : List Char := ("\"temperature\":").data
def humKey : List Char := ("\"humidity\":").data
def waterKey : List Char := ("\"waterSensor\":").data
def commaTok : List Char := (",").data
def braceTok : List Char := ("\x7d").data

/-- tempStart of handleUpdateSensor (src 395): indexOf + key length 14. -/
def tempStartI (body : List Char) : Int := indexOfFrom body tempKey 0 + 14

/-- tempEnd (src 396): the first comma at or after tempStart. -/
def tempEndI (body : List Char) : Int :=
  indexOfFrom body commaTok (tempStartI body).toNat

/-- The update condition for temperature (src 397). -/
def tempHitB (body : List Char) : Bool :=
  decide (tempStartI body > 14) && decide (tempEndI body > tempStartI body)

/-- humStart (src 403): indexOf + key length 11. -/
def humStartI (body : List Char) : Int := indexOfFrom body humKey 0 + 11

/-- humEnd (src 404): the first comma at or after humStart. -/
def humEndI (body : List Char) : Int :=
  indexOfFrom body commaTok (humStartI body).toNat

/-- The update condition for humidity (src 405). -/
def humHitB (body : List Char) : Bool :=
  decide (humStartI body > 11) && decide (humEndI body > humStartI body)

/-- waterStart (src 411): indexOf + key length 14. -/
def waterStartI (body : List Char) : Int := indexOfFrom body waterKey 0 + 14

/-- waterEnd (src 412): the first closing brace at or after waterStart. -/
def waterEndI (body : List Char) : Int :=
  indexOfFrom body braceTok (waterStartI body).toNat

/-- The update condition for waterSensor (src 413). -/
def waterHitB (body : List Char) : Bool :=
  decide (waterStartI body > 14) && decide (waterEndI body > waterStartI body)

def jsonCT : List Char := ("application/json").data
def okBodyPre : List Char := ("\x7b\"status\":\"ok\",\"timestamp\":").data
def okBodySuf : List Char := ("\x7d").data
def invalidBody : List Char :=
  ("\x7b\"status\":\"error\",\"message\":\"Invalid data format\"\x7d").data
def noDataBody : List Char :=
  ("\x7b\"status\":\"error\",\"message\":\"No data received\"\x7d").data

/-- handleUpdateSensor (src 383-439). `arg` is server.arg("plain") when the
request carried a body, `now` is millis(), and toF / toI abstract the
external Arduino string conversions. Returns the new state and the
response. -/
def handleUpdateSensor (toF : List Char → Rat) (toI : List Char → Int)
    (st : UpdState) (arg : Option (List Char)) (now : Nat) :
    UpdState × HttpResponse :=
  match arg with
  | none => (st, { status := 400, contentType := jsonCT, body := noDataBody })
  | some body =>
    let s1 :=
      if tempHitB body then
        { st.sensor with
            temperature :=
              toF (substrOf body (tempStartI body).toNat (tempEndI body).toNat) }
      else st.sensor
    let s2 :=
      if humHitB body then
        { s1 with
            humidity :=
              toF (substrOf body (humStartI body).toNat (humEndI body).toNat) }
      else s1
    let s3 :=
      if waterHitB body then
        { s2 with
            waterSensor :=
              toI (substrOf body (waterStartI body).toNat (waterEndI body).toNat) }
      else s2
    if tempHitB body || humHitB body || waterHitB body then
      ({ sensor := s3, lastDataReceived := now },
       { status := 200, contentType := jsonCT,
         body := okBodyPre ++ (Nat.repr now).data ++ okBodySuf })
    else
      ({ sensor := s3, lastDataReceived := st.lastDataReceived },
       { status := 400, contentType := jsonCT, body := invalidBody })

/-! ## Helper lemmas: chunking and the action trace -/

theorem chunkWrites_nil : chunkWrites [] = [] := rfl

theorem chunkWrites_cons (l : List Nat) (h : l ≠ []) :
    chunkWrites l = l.take 4096 :: chunkWrites (l.drop 4096) := by
  have hpos : 1 ≤ l.length := by
    cases l with
    | nil => exact absurd rfl h
    | cons x xs => simp
  have hlen : (l.drop 4096).length = l.length - 4096 := by simp
  have hc : (l.length + 4095) / 4096 = ((l.length - 4096) + 4095) / 4096 + 1 := by
    omega
  unfold chunkWrites
  rw [hlen, hc, List.range_succ_eq_map]
  simp only [List.map_cons, Nat.zero_mul, List.drop_zero, List.map_map]
  refine congrArg (l.take 4096 :: ·) (List.map_congr_left ?_)
  intro k _
  simp only [Function.comp_apply]
  rw [List.drop_drop]
  have e : Nat.succ k * 4096 = 4096 + k * 4096 := by omega
  rw [e]

theorem chunkWrites_flatten (l : List Nat) : (chunkWrites l).flatten = l := by
  have H : ∀ n (l : List Nat), l.length ≤ n → (chunkWrites l).flatten = l := by
    intro n
    induction n with
    | zero =>
      intro l hl
      have : l = [] := by
        cases l with
        | nil => rfl
        | cons x xs => simp at hl
      rw [this, chunkWrites_nil]
      rfl
    | succ n ih =>
      intro l hl
      by_cases hne : l = []
      · rw [hne, chunkWrites_nil]; rfl
      · rw [chunkWrites_cons l hne, List.flatten_cons,
          ih (l.drop 4096) (by simp; omega), List.take_append_drop]
  exact H l.length l le_rfl

theorem chunkWrites_bound (l : List Nat) : ∀ c ∈ chunkWrites l, c.length ≤ 4096 := by
  intro c hc
  unfold chunkWrites at hc
  rcases List.mem_map.mp hc with ⟨k, _, rfl⟩
  simp [List.length_take]

theorem isSend_send (bs : List Nat) : isSend (Action.send bs) = true := rfl

theorem partActions_sendOnly (p : List Nat) :
    ∀ a ∈ partActions p, isSend a = true := by
  intro a ha
  simp only [partActions, List.mem_append, List.mem_cons, List.mem_map,
    List.not_mem_nil, or_false] at ha
  rcases ha with (rfl | ⟨c, _, rfl⟩) | rfl <;> rfl

theorem countA_nil (a : Action) : countA a [] = 0 := rfl

theorem countA_cons (a x : Action) (l : List Action) :
    countA a (x :: l) = (if x = a then 1 else 0) + countA a l := by
  simp only [countA, List.filter_cons]
  by_cases h : x = a
  · simp [h, Nat.add_comm]
  · simp [h]

theorem countA_append (a : Action) (l m : List Action) :
    countA a (l ++ m) = countA a l + countA a m := by
  simp [countA, List.filter_append]

theorem countA_eq_zero_of_sendOnly (a : Action) (l : List Action)
    (ha : isSend a = false) (hl : ∀ x ∈ l, isSend x = true) : countA a l = 0 := by
  induction l with
  | nil => rfl
  | cons x xs ih =>
    rw [countA_cons]
    have hx := hl x (by simp)
    have hne : x ≠ a := by
      intro e
      rw [e, ha] at hx
      exact Bool.false_ne_true hx
    rw [if_neg hne, ih (fun y hy => hl y (by simp [hy]))]

theorem sends_append (l m : List Action) :
    sends (l ++ m) = sends l ++ sends m := by
  simp [sends, List.filterMap_append]

theorem sends_cons_send (bs : List Nat) (l : List Action) :
    sends (Action.send bs :: l) = bs :: sends l := rfl

theorem sends_map_send (l : List (List Nat)) :
    sends (l.map Action.send) = l := by
  induction l with
  | nil => rfl
  | cons x xs ih => simpa [sends, List.filterMap_cons] using ih

theorem sends_partActions (p : List Nat) :
    sends (partActions p) =
      strBytes (partHeaderStr p.length) :: (chunkWrites p ++ [strBytes crlfStr]) := by
  simp only [partActions, List.cons_append, sends_cons_send, sends_append,
    sends_map_send]
  rfl

theorem encodeCall_80_iter (enc : FrameBuf → Nat → Option (List Nat))
    (cap : Option FrameBuf) (fb : FrameBuf) (q : Nat)
    (h : Action.encodeCall fb q ∈ streamIter enc cap) : q = 80 := by
  cases cap with
  | none => simp [streamIter] at h
  | some f =>
    by_cases hf : f.format = PixFormat.jpeg
    · rw [streamIter, if_neg (by simp [hf])] at h
      rcases List.mem_append.mp h with h | h
      · have := partActions_sendOnly f.buf _ h
        simp [isSend] at this
      · simp at h
    · rw [streamIter, if_pos hf] at h
      cases henc : enc f 80 with
      | none =>
        rw [henc] at h
        simp only [List.mem_cons, List.not_mem_nil, or_false] at h
        rcases h with h | h | h
        · injection h with h1 h2
        · simp at h
        · simp at h
      | some out =>
        rw [henc] at h
        simp only [List.mem_cons] at h
        rcases h with h | h | h
        · injection h with h1 h2
        · simp at h
        · rcases List.mem_append.mp h with h | h
          · have := partActions_sendOnly out _ h
            simp [isSend] at this
          · simp only [List.mem_cons, List.not_mem_nil, or_false] at h
            rcases h with h | h <;> simp at h

theorem encodeCall_80_run (enc : FrameBuf → Nat → Option (List Nat))
    (ins : List IterInput) (fb : FrameBuf) (q : Nat)
    (h : Action.encodeCall fb q ∈ runStream enc ins) : q = 80 := by
  induction ins with
  | nil => simp [runStream] at h
  | cons e rest ih =>
    rw [runStream] at h
    by_cases hc : e.connected
    · rw [if_pos hc] at h
      rcases List.mem_append.mp h with h | h
      · exact encodeCall_80_iter enc e.capture fb q h
      · exact ih h
    · rw [if_neg hc] at h
      simp at h

/-! ## Helper lemmas: the probe loop -/

theorem joinLoop_allFalse (wifi : Nat → Bool) (hw : ∀ n, wifi n = false) :
    ∀ r a p, joinLoop wifi r a p = (a + r, p + r + 1) := by
  intro r
  induction r with
  | zero => intro a p; simp [joinLoop]
  | succ r ih =>
    intro a p
    rw [joinLoop, hw p]
    simp only [Bool.false_eq_true, if_false, ih (a + 1) (p + 1)]
    have e1 : a + 1 + r = a + (r + 1) := by omega
    have e2 : p + 1 + r + 1 = p + (r + 1) + 1 := by omega
    rw [e1, e2]

theorem joinLoop_fst_le (wifi : Nat → Bool) :
    ∀ r a p, (joinLoop wifi r a p).1 ≤ a + r := by
  intro r
  induction r with
  | zero => intro a p; simp [joinLoop]
  | succ r ih =>
    intro a p
    rw [joinLoop]
    by_cases h : wifi p = true
    · rw [if_pos h]
      exact Nat.le_add_right a (r + 1)
    · rw [if_neg h]
      have := ih (a + 1) (p + 1)
      omega

theorem joinLoop_success (wifi : Nat → Bool) :
    ∀ k r a p, k ≤ r → (∀ i, p ≤ i → i < p + k → wifi i = false) →
      wifi (p + k) = true → joinLoop wifi r a p = (a + k, p + k + 1) := by
  intro k
  induction k with
  | zero =>
    intro r a p _ _ hsucc
    cases r with
    | zero => simp [joinLoop]
    | succ r =>
      rw [joinLoop, if_pos (by simpa using hsucc)]
      simp
  | succ k ih =>
    intro r a p hkr hfail hsucc
    cases r with
    | zero => omega
    | succ r =>
      have hp : wifi p = false := hfail p le_rfl (by omega)
      rw [joinLoop, hp]
      simp only [Bool.false_eq_true, if_false]
      rw [ih r (a + 1) (p + 1) (by omega)
        (fun i h1 h2 => hfail i (by omega) (by omega))
        (by rw [show p + 1 + k = p + (k + 1) by omega]; exact hsucc)]
      have e1 : a + 1 + k = a + (k + 1) := by omega
      have e2 : p + 1 + k + 1 = p + (k + 1) + 1 := by omega
      rw [e1, e2]

/-! ## Helper lemmas: setup radio trace -/

theorem foldl_probeDelays (n d : Nat) (rest : List NetEvent) :
    ∀ s : RadioState,
      (List.replicate n (NetEvent.probeDelay d) ++ rest).foldl radioStep s =
        rest.foldl radioStep s := by
  induction n with
  | zero => intro s; rfl
  | succ n ih =>
    intro s
    rw [List.replicate_succ, List.cons_append, List.foldl_cons]
    exact ih s

theorem apStatesAtProbes_replicate (n d : Nat) (rest : List NetEvent) :
    ∀ s : RadioState,
      apStatesAtProbes s (List.replicate n (NetEvent.probeDelay d) ++ rest) =
        List.replicate n (apActive s) ++ apStatesAtProbes s rest := by
  induction n with
  | zero => intro s; rfl
  | succ n ih =>
    intro s
    rw [List.replicate_succ, List.cons_append, apStatesAtProbes,
      List.replicate_succ, List.cons_append]
    exact congrArg (apActive s :: ·) (ih s)

/-! ## Helper lemmas: substring search -/

theorem indexOfFrom_eq_neg_one (hay needle : List Char)
    (h : hasSub hay needle = false) : indexOfFrom hay needle 0 = -1 := by
  unfold indexOfFrom
  have hall : ∀ i ∈ List.range (hay.length + 1), occursAt needle hay i = false := by
    intro i hi
    cases hx : occursAt needle hay i with
    | false => rfl
    | true =>
      exfalso
      have : hasSub hay needle = true := by
        unfold hasSub
        rw [List.any_eq_true]
        exact ⟨i, hi, hx⟩
      rw [h] at this
      exact Bool.false_ne_true this
  have hnone : (List.range (hay.length + 1)).find?
      (fun i => decide (0 ≤ i) && occursAt needle hay i) = none := by
    rw [List.find?_eq_none]
    intro i hi
    simp [hall i hi]
  rw [hnone]

theorem tempHitB_false_of_no_key (body : List Char)
    (h : indexOfFrom body tempKey 0 = -1) : tempHitB body = false := by
  unfold tempHitB tempStartI
  rw [h]
  rfl

theorem humHitB_false_of_no_key (body : List Char)
    (h : indexOfFrom body humKey 0 = -1) : humHitB body = false := by
  unfold humHitB humStartI
  rw [h]
  rfl

theorem waterHitB_false_of_no_key (body : List Char)
    (h : indexOfFrom body waterKey 0 = -1) : waterHitB body = false := by
  unfold waterHitB waterStartI
  rw [h]
  rfl

/-! ## Claim theorems -/

/-- C1: in every stream-loop iteration that acquires a hardware frame buffer,
exactly one release path runs. The hardware buffer is returned to the driver
exactly once in every case; on the borrowed path (frame already JPEG) the
heap-free path never runs; on the owned path (re-encoded frame) the hardware
buffer is returned before any part data is sent and the encoder output is
freed exactly once after all part data is sent (the part actions are all
channel writes); on encoder failure the hardware buffer is returned and
nothing is sent. -/
theorem stream_buffer_single_release (enc : FrameBuf → Nat → Option (List Nat))
    (fb : FrameBuf) :
    countA (Action.fbReturn fb) (streamIter enc (some fb)) = 1
    ∧ (fb.format = PixFormat.jpeg →
        streamIter enc (some fb) =
          partActions fb.buf ++ [Action.fbReturn fb, Action.delayMs 100]
        ∧ ∀ b, countA (Action.freeBuf b) (streamIter enc (some fb)) = 0)
    ∧ (∀ out, fb.format ≠ PixFormat.jpeg → enc fb 80 = some out →
        streamIter enc (some fb) =
          Action.encodeCall fb 80 :: Action.fbReturn fb ::
            (partActions out ++ [Action.freeBuf out, Action.delayMs 100])
        ∧ countA (Action.freeBuf out) (streamIter enc (some fb)) = 1
        ∧ ∀ a ∈ partActions out, isSend a = true)
    ∧ (fb.format ≠ PixFormat.jpeg → enc fb 80 = none →
        streamIter enc (some fb) =
          [Action.encodeCall fb 80, Action.fbReturn fb, Action.delayMs 100]) := by
  by_cases hf : fb.format = PixFormat.jpeg
  · have hiter : streamIter enc (some fb) =
        partActions fb.buf ++ [Action.fbReturn fb, Action.delayMs 100] := by
      rw [streamIter, if_neg (by simp [hf])]
    refine ⟨?_, fun _ => ⟨hiter, ?_⟩, fun out hne _ => absurd hf hne, fun hne _ => absurd hf hne⟩
    · rw [hiter, countA_append,
        countA_eq_zero_of_sendOnly (Action.fbReturn fb) _ rfl
          (partActions_sendOnly fb.buf),
        countA_cons, countA_cons, countA_nil]
      simp
    · intro b
      rw [hiter, countA_append,
        countA_eq_zero_of_sendOnly (Action.freeBuf b) _ rfl
          (partActions_sendOnly fb.buf),
        countA_cons, countA_cons, countA_nil]
      simp
  · cases henc : enc fb 80 with
    | none =>
      have hiter : streamIter enc (some fb) =
          [Action.encodeCall fb 80, Action.fbReturn fb, Action.delayMs 100] := by
        rw [streamIter, if_pos hf, henc]
      refine ⟨?_, fun hj => absurd hj hf, ?_, fun _ _ => hiter⟩
      · rw [hiter, countA_cons, countA_cons, countA_cons, countA_nil]
        simp
      · intro out _ he
        exact absurd he (by simp)
    | some out =>
      have hiter : streamIter enc (some fb) =
          Action.encodeCall fb 80 :: Action.fbReturn fb ::
            (partActions out ++ [Action.freeBuf out, Action.delayMs 100]) := by
        rw [streamIter, if_pos hf, henc]
      refine ⟨?_, fun hj => absurd hj hf, ?_, ?_⟩
      · rw [hiter, countA_cons, countA_cons, countA_append,
          countA_eq_zero_of_sendOnly (Action.fbReturn fb) _ rfl
            (partActions_sendOnly out),
          countA_cons, countA_cons, countA_nil]
        simp
      · intro out2 _ he
        have e : out = out2 := Option.some.inj he
        subst e
        refine ⟨hiter, ?_, partActions_sendOnly out⟩
        rw [hiter, countA_cons, countA_cons, countA_append,
          countA_eq_zero_of_sendOnly (Action.freeBuf out) _ rfl
            (partActions_sendOnly out),
          countA_cons, countA_cons, countA_nil]
        simp
      · intro _ he
        exact absurd he (by simp)

/-- C1 witness at a concrete non-JPEG frame and a successful encoder:
the hardware buffer is returned exactly once and the encoder output is
freed exactly once. -/
theorem stream_buffer_single_release_witness :
    countA (Action.fbReturn { format := PixFormat.rgb565, buf := [5, 6] })
        (streamIter (fun _ _ => some [1, 2, 3])
          (some { format := PixFormat.rgb565, buf := [5, 6] })) = 1
    ∧ countA (Action.freeBuf [1, 2, 3])
        (streamIter (fun _ _ => some [1, 2, 3])
          (some { format := PixFormat.rgb565, buf := [5, 6] })) = 1 :=
  ⟨(stream_buffer_single_release (fun _ _ => some [1, 2, 3])
      { format := PixFormat.rgb565, buf := [5, 6] }).1,
   ((stream_buffer_single_release (fun _ _ => some [1, 2, 3])
      { format := PixFormat.rgb565, buf := [5, 6] }).2.2.1 [1, 2, 3]
      (by simp) rfl).2.1⟩

/-- C4: the byte stream starts with exactly the multipart preamble, sent once
before the loop; each delivered frame emits exactly one part: the part header
with Content-Length equal to the payload length, the payload in chunks of at
most 4096 bytes whose concatenation is the payload, and a trailing CRLF; this
holds verbatim for both the borrowed (already-JPEG) and the re-encoded
payload; and every encoder invocation anywhere in a session uses quality 80. -/
theorem stream_multipart_framing (enc : FrameBuf → Nat → Option (List Nat))
    (ins : List IterInput) (p : List Nat) :
    handleStream enc ins =
      Action.send (strBytes streamPreambleStr) :: runStream enc ins
    ∧ sends (partActions p) =
        strBytes (partHeaderStr p.length) :: (chunkWrites p ++ [strBytes crlfStr])
    ∧ (∀ c ∈ chunkWrites p, c.length ≤ 4096)
    ∧ (chunkWrites p).flatten = p
    ∧ (∀ fb, fb.format = PixFormat.jpeg →
        sends (streamIter enc (some fb)) = sends (partActions fb.buf))
    ∧ (∀ fb out, fb.format ≠ PixFormat.jpeg → enc fb 80 = some out →
        sends (streamIter enc (some fb)) = sends (partActions out))
    ∧ (∀ fb q, Action.encodeCall fb q ∈ handleStream enc ins → q = 80) := by
  refine ⟨rfl, sends_partActions p, chunkWrites_bound p, chunkWrites_flatten p,
    ?_, ?_, ?_⟩
  · intro fb hf
    rw [streamIter, if_neg (by simp [hf]), sends_append]
    simp [sends]
  · intro fb out hf henc
    rw [streamIter, if_pos hf, henc]
    show sends (Action.encodeCall fb 80 :: Action.fbReturn fb ::
      (partActions out ++ [Action.freeBuf out, Action.delayMs 100])) = _
    rw [show sends (Action.encodeCall fb 80 :: Action.fbReturn fb ::
        (partActions out ++ [Action.freeBuf out, Action.delayMs 100])) =
        sends (partActions out ++ [Action.freeBuf out, Action.delayMs 100]) from rfl,
      sends_append]
    simp [sends]
  · intro fb q h
    rw [handleStream] at h
    rcases List.mem_cons.mp h with h | h
    · exact absurd h (by simp)
    · exact encodeCall_80_run enc ins fb q h

/-- C4 witness at a concrete two-byte JPEG frame: the chunks concatenate to
the payload and the borrowed-path sends equal one part's sends. -/
theorem stream_multipart_framing_witness :
    (chunkWrites [9, 9]).flatten = [9, 9]
    ∧ sends (streamIter (fun _ _ => none)
          (some { format := PixFormat.jpeg, buf := [9, 9] })) =
        sends (partActions [9, 9]) :=
  ⟨(stream_multipart_framing (fun _ _ => none) [] [9, 9]).2.2.2.1,
   (stream_multipart_framing (fun _ _ => none) [] [9, 9]).2.2.2.2.1
      { format := PixFormat.jpeg, buf := [9, 9] } rfl⟩

/-- C6 counterexample: a zero-length frame is not treated as a capture
failure. For a zero-length frame whose format is JPEG, the loop iteration
emits a full multipart part (header with Content-Length: 0 and trailer)
instead of taking the capture-failure retry path. -/
theorem zero_length_frame_emits_part :
    streamIter (fun _ _ => none) (some { format := PixFormat.jpeg, buf := [] }) =
      [Action.send (strBytes (partHeaderStr 0)), Action.send (strBytes crlfStr),
       Action.fbReturn { format := PixFormat.jpeg, buf := [] }, Action.delayMs 100]
    ∧ sends (streamIter (fun _ _ => none)
          (some { format := PixFormat.jpeg, buf := [] })) ≠ []
    ∧ streamIter (fun _ _ => none) (some { format := PixFormat.jpeg, buf := [] }) ≠
        [Action.delayMs 100] := by
  refine ⟨rfl, ?_, ?_⟩ <;> decide

/-- C6 (amended): only a NULL capture result takes the retry path (backoff
100 ms, no part emitted); a zero-length frame is passed through, and when its
format is JPEG it is emitted as a part with Content-Length: 0. -/
theorem null_capture_only_retry_path (enc : FrameBuf → Nat → Option (List Nat)) :
    streamIter enc none = [Action.delayMs 100]
    ∧ streamIter enc (some { format := PixFormat.jpeg, buf := [] }) =
        partActions [] ++
          [Action.fbReturn { format := PixFormat.jpeg, buf := [] },
           Action.delayMs 100]
    ∧ sends (partActions ([] : List Nat)) =
        [strBytes (partHeaderStr 0), strBytes crlfStr] :=
  ⟨rfl, rfl, rfl⟩

/-- C7: capture failures never end a stream session. The loop runs through
every connected iteration — a capture failure only produces the 100 ms
backoff — and the session ends exactly at the first iteration whose
connectivity check reports the client disconnected, regardless of how many
capture failures preceded it. -/
theorem capture_failures_never_end_session
    (enc : FrameBuf → Nat → Option (List Nat))
    (pre post : List IterInput) (e : IterInput)
    (hpre : ∀ x ∈ pre, x.connected = true) (he : e.connected = false) :
    runStream enc (pre ++ e :: post) =
      (pre.map (fun x => streamIter enc x.capture)).flatten
    ∧ streamIter enc none = [Action.delayMs 100] := by
  refine ⟨?_, rfl⟩
  induction pre with
  | nil =>
    rw [List.nil_append, runStream, if_neg (by rw [he]; exact Bool.false_ne_true)]
    rfl
  | cons x xs ih =>
    rw [List.cons_append, runStream, if_pos (hpre x (by simp)),
      ih (fun y hy => hpre y (by simp [hy])), List.map_cons, List.flatten_cons]

/-- C7 witness: one connected iteration with a capture failure followed by a
disconnect: the session output is exactly the one backoff iteration. -/
theorem capture_failures_never_end_session_witness :
    runStream (fun _ _ => none)
        ([{ connected := true, capture := none }] ++
          { connected := false, capture := none } :: []) =
      (([{ connected := true, capture := none }] : List IterInput).map
          (fun x => streamIter (fun _ _ => none) x.capture)).flatten
    ∧ streamIter (fun _ _ => none) none = [Action.delayMs 100] :=
  capture_failures_never_end_session (fun _ _ => none)
    [{ connected := true, capture := none }] []
    { connected := false, capture := none }
    (by intro x hx; simp at hx; rw [hx]) rfl

/-- C2 counterexample: at a startup where every status poll fails, exactly 20
probes are performed, yet every one of the 20 probes happens while the
self-hosted AP is not reachable — setup runs connectToWiFi in STA-only mode
and only starts the soft AP afterwards, so the AP is not up during the
probing sequence. -/
theorem ap_not_reachable_during_initial_probes :
    (connectToWiFi (fun _ => false)).probes = 20
    ∧ apStatesAtProbes radioInit (setupEvents (fun _ => false)) =
        List.replicate 20 false
    ∧ apActive (radioAfter (setupEvents (fun _ => false))) = true :=
  ⟨rfl, rfl, rfl⟩

/-- C2 (amended): for every startup in which all initial join probes fail,
exactly 20 probes are performed, the final status check fails, and the
firmware enters host-only fallback: AP-only mode with the soft AP started,
so the self-hosted network is reachable after the probing sequence — but
during the probing sequence the AP is not yet reachable, since at boot it
is only started after connectToWiFi returns. -/
theorem initial_join_twenty_probes_then_fallback (wifi : Nat → Bool)
    (hw : ∀ n, wifi n = false) :
    (connectToWiFi wifi).probes = 20
    ∧ (connectToWiFi wifi).ok = false
    ∧ radioAfter (setupEvents wifi) = { mode := WifiMode.ap, apStarted := true }
    ∧ apActive (radioAfter (setupEvents wifi)) = true
    ∧ apStatesAtProbes radioInit (setupEvents wifi) = List.replicate 20 false := by
  have hj : joinLoop wifi MAX_CONNECTION_ATTEMPTS 0 0 = (20, 21) :=
    joinLoop_allFalse wifi hw MAX_CONNECTION_ATTEMPTS 0 0
  have hc : connectToWiFi wifi = { ok := false, probes := 20 } := by
    rw [connectToWiFi]
    simp only [hj]
    rw [hw 21]
  have hevs : setupEvents wifi =
      (NetEvent.setMode WifiMode.sta
          :: List.replicate 20 (NetEvent.probeDelay 500))
        ++ [NetEvent.setMode WifiMode.ap, NetEvent.softAPStart] := by
    rw [setupEvents]
    simp only [hc]
    rfl
  refine ⟨by rw [hc], by rw [hc], ?_, ?_, ?_⟩
  · rw [radioAfter, hevs, List.cons_append, List.foldl_cons, foldl_probeDelays]
    rfl
  · rw [radioAfter, hevs, List.cons_append, List.foldl_cons, foldl_probeDelays]
    rfl
  · rw [hevs, List.cons_append]
    have step : apStatesAtProbes radioInit
        (NetEvent.setMode WifiMode.sta ::
          (List.replicate 20 (NetEvent.probeDelay 500) ++
            [NetEvent.setMode WifiMode.ap, NetEvent.softAPStart])) =
        apStatesAtProbes radioInit
          (List.replicate 20 (NetEvent.probeDelay 500) ++
            [NetEvent.setMode WifiMode.ap, NetEvent.softAPStart]) := rfl
    rw [step, apStatesAtProbes_replicate]
    rfl

/-- C2 witness: the all-fail startup, with the hypothesis discharged at the
all-false poll trace. -/
theorem initial_join_twenty_probes_then_fallback_witness :
    (connectToWiFi (fun _ => false)).ok = false
    ∧ radioAfter (setupEvents (fun _ => false)) =
        { mode := WifiMode.ap, apStarted := true } :=
  ⟨(initial_join_twenty_probes_then_fallback (fun _ => false) (fun _ => rfl)).2.1,
   (initial_join_twenty_probes_then_fallback (fun _ => false) (fun _ => rfl)).2.2.1⟩

/-- C3 counterexample: a single invocation of the driver loop does not
perform at most one probe. When the flag is set and the link stays down, one
loop() call performs the whole blocking reconnection sequence: 10 probes. -/
theorem single_loop_invocation_ten_probes :
    (loopNetwork (fun _ => false) { connectedToWiFi := true }).2 = 10 := rfl

/-- C3 (amended): a driver-loop invocation performs no probe when the flag
is cleared or the first status poll reports the link up; an invocation that
detects a link loss blocks and performs the entire bounded reconnection
sequence within that single call — up to 10 probes of 500 ms, and exactly
10 when the link stays down — with no probe-interval pacing across calls. -/
theorem loop_invocation_probe_batching (wifi : Nat → Bool) (st : LoopState) :
    ((st.connectedToWiFi = false ∨ wifi 0 = true) → loopNetwork wifi st = (st, 0))
    ∧ (loopNetwork wifi st).2 ≤ 10
    ∧ (st.connectedToWiFi = true → wifi 0 = false → (∀ n, wifi n = false) →
        (loopNetwork wifi st).2 = 10) := by
  refine ⟨?_, ?_, ?_⟩
  · intro h
    rw [loopNetwork]
    rcases h with h | h
    · rw [if_neg (by rw [h]; simp)]
    · rw [if_neg (by rw [h]; simp)]
  · rw [loopNetwork]
    by_cases h : st.connectedToWiFi && !(wifi 0)
    · rw [if_pos h]
      have hle := joinLoop_fst_le wifi 10 0 1
      by_cases h2 : wifi (joinLoop wifi 10 0 1).2 = true
      · rw [if_pos h2]; omega
      · rw [if_neg h2]; omega
    · rw [if_neg h]
      exact Nat.zero_le 10
  · intro hst h0 hall
    rw [loopNetwork, if_pos (by rw [hst, h0]; rfl)]
    simp [joinLoop_allFalse wifi hall 10 0 1, hall]

/-- C3 witness: with the link down throughout, one invocation performs 10
probes; 10 is also within the per-invocation bound. -/
theorem loop_invocation_probe_batching_witness :
    (loopNetwork (fun _ => false) { connectedToWiFi := true }).2 = 10
    ∧ (loopNetwork (fun _ => false) { connectedToWiFi := true }).2 ≤ 10 :=
  ⟨(loop_invocation_probe_batching (fun _ => false)
      { connectedToWiFi := true }).2.2 rfl rfl (fun _ => rfl),
   (loop_invocation_probe_batching (fun _ => false)
      { connectedToWiFi := true }).2.1⟩

/-- C5: per link-loss event at most 10 reconnection probes are performed;
once the flag is cleared (host-only fallback) every later invocation is a
no-op — no probe, no rejoin, over any sequence of invocations, so fallback
is terminal for the boot session; a probe sequence that succeeds at attempt
k ≤ 10 (with a link that stays up once restored within the invocation)
returns to the client-joined state, and since the attempts counter is local
to the invocation the budget is full again at the next loss; if every poll
fails, exactly 10 probes run and the state reverts to host-only fallback. -/
theorem reconnect_budget_success_and_terminal_fallback
    (wifi : Nat → Bool) (st : LoopState) (ws : List (Nat → Bool)) (k : Nat) :
    (loopNetwork wifi st).2 ≤ 10
    ∧ (st.connectedToWiFi = false → runLoop st ws = (st, 0))
    ∧ (st.connectedToWiFi = true → wifi 0 = false → k ≤ 10 →
        (∀ i, 1 ≤ i → i ≤ k → wifi i = false) → wifi (k + 1) = true →
        (∀ i j, i ≤ j → wifi i = true → wifi j = true) →
        loopNetwork wifi st = ({ connectedToWiFi := true }, k))
    ∧ (st.connectedToWiFi = true → (∀ n, wifi n = false) →
        loopNetwork wifi st = ({ connectedToWiFi := false }, 10)) := by
  refine ⟨?_, ?_, ?_, ?_⟩
  · rw [loopNetwork]
    by_cases h : st.connectedToWiFi && !(wifi 0)
    · rw [if_pos h]
      have hle := joinLoop_fst_le wifi 10 0 1
      by_cases h2 : wifi (joinLoop wifi 10 0 1).2 = true
      · rw [if_pos h2]; omega
      · rw [if_neg h2]; omega
    · rw [if_neg h]
      exact Nat.zero_le 10
  · intro hst
    cases st with
    | mk c =>
      simp only at hst
      subst hst
      induction ws with
      | nil => rfl
      | cons w rest ih =>
        rw [runLoop]
        simp only [loopNetwork, Bool.false_and, Bool.false_eq_true, if_false]
        rw [ih]
        rfl
  · intro hst h0 hk hfail hsucc hmono
    cases st with
    | mk c =>
      simp only at hst
      subst hst
      have hloop : joinLoop wifi 10 0 1 = (0 + k, 1 + k + 1) :=
        joinLoop_success wifi k 10 0 1 hk
          (fun i h1 h2 => hfail i h1 (by omega))
          (by rw [show 1 + k = k + 1 by omega]; exact hsucc)
      have hfinal : wifi (1 + k + 1) = true :=
        hmono (k + 1) (1 + k + 1) (by omega) hsucc
      rw [loopNetwork, if_pos (by rw [h0]; rfl)]
      simp [hloop, hfinal]
  · intro hst hall
    cases st with
    | mk c =>
      simp only at hst
      subst hst
      rw [loopNetwork, if_pos (by rw [hall 0]; rfl)]
      simp [joinLoop_allFalse wifi hall 10 0 1, hall]

/-- C5 witness: a loss whose link comes back at the third poll: the
invocation performs 2 probes and returns to the client-joined state; and a
cleared flag stays a no-op over a whole invocation sequence. -/
theorem reconnect_budget_success_and_terminal_fallback_witness :
    loopNetwork (fun n => decide (3 ≤ n)) { connectedToWiFi := true } =
      ({ connectedToWiFi := true }, 2)
    ∧ runLoop { connectedToWiFi := false }
        [fun _ => true, fun _ => false] = ({ connectedToWiFi := false }, 0) :=
  ⟨(reconnect_budget_success_and_terminal_fallback (fun n => decide (3 ≤ n))
      { connectedToWiFi := true } [] 2).2.2.1 rfl rfl (by omega)
      (by intro i h1 h2; simp only [decide_eq_false_iff_not]; omega)
      (by simp) (by intro i j hij hi; simp only [decide_eq_true_eq] at hi ⊢; omega),
   (reconnect_budget_success_and_terminal_fallback (fun _ => true)
      { connectedToWiFi := false } [fun _ => true, fun _ => false] 0).2.1 rfl⟩

/-- C8 counterexample: the presence of a recognized key is not sufficient for
a 200 response. The body below contains the recognized key
`"temperature":` yet gets status 400, because no comma follows the value,
so the handler's delimiter check fails. -/
theorem recognized_key_without_delimiter_gets_400 :
    (handleUpdateSensor (fun _ => 0) (fun _ => 0)
        { sensor := { temperature := 25, humidity := 50, waterSensor := 0 },
          lastDataReceived := 0 }
        (some (("\x7b\"temperature\":23.5\x7d").data)) 1000).2.status = 400
    ∧ hasSub (("\x7b\"temperature\":23.5\x7d").data) tempKey = true := by
  constructor <;> decide

/-- C8 (amended): a 200 response is returned iff at least one recognized key
matches together with its delimiter: the key found at index ≥ 1 and the
matching delimiter (a comma for temperature and humidity, a closing brace
for waterSensor) found at or after the position just past the key; key
presence alone is not sufficient. The absence of all recognized keys still
yields a 400 response with the state unchanged. -/
theorem update_sensor_status_characterization (toF : List Char → Rat)
    (toI : List Char → Int) (st : UpdState) (now : Nat) (body : List Char) :
    ((handleUpdateSensor toF toI st (some body) now).2.status = 200
        ↔ (tempHitB body || humHitB body || waterHitB body) = true)
    ∧ ((handleUpdateSensor toF toI st (some body) now).2.status = 400
        ↔ (tempHitB body || humHitB body || waterHitB body) = false)
    ∧ ((hasSub body tempKey || hasSub body humKey || hasSub body waterKey) = false →
        (handleUpdateSensor toF toI st (some body) now).2.status = 400
        ∧ (handleUpdateSensor toF toI st (some body) now).1 = st) := by
  refine ⟨?_, ?_, ?_⟩
  · cases h3 : (tempHitB body || humHitB body || waterHitB body) with
    | false => simp [handleUpdateSensor, h3]
    | true => simp [handleUpdateSensor, h3]
  · cases h3 : (tempHitB body || humHitB body || waterHitB body) with
    | false => simp [handleUpdateSensor, h3]
    | true => simp [handleUpdateSensor, h3]
  · intro hno
    have hnot : tempHitB body = false ∧ humHitB body = false
        ∧ waterHitB body = false := by
      rcases Bool.or_eq_false_iff.mp hno with ⟨h12, h3⟩
      rcases Bool.or_eq_false_iff.mp h12 with ⟨h1, h2⟩
      exact ⟨tempHitB_false_of_no_key body (indexOfFrom_eq_neg_one body tempKey h1),
        humHitB_false_of_no_key body (indexOfFrom_eq_neg_one body humKey h2),
        waterHitB_false_of_no_key body (indexOfFrom_eq_neg_one body waterKey h3)⟩
    constructor
    · simp [handleUpdateSensor, hnot.1, hnot.2.1, hnot.2.2]
    · simp [handleUpdateSensor, hnot.1, hnot.2.1, hnot.2.2]

/-- C8 witness at the spec's full three-field body: all three keys match
with their delimiters and the response is 200. -/
theorem update_sensor_status_characterization_witness :
    (handleUpdateSensor (fun _ => 0) (fun _ => 0)
        { sensor := { temperature := 25, humidity := 50, waterSensor := 0 },
          lastDataReceived := 0 }
        (some (("\x7b\"temperature\":23.5,\"humidity\":44,\"waterSensor\":1\x7d").data))
        7).2.status = 200 :=
  (update_sensor_status_characterization (fun _ => 0) (fun _ => 0)
      { sensor := { temperature := 25, humidity := 50, waterSensor := 0 },
        lastDataReceived := 0 }
      7 (("\x7b\"temperature\":23.5,\"humidity\":44,\"waterSensor\":1\x7d").data)).1.mpr
    (by decide)

/-- C9: a request whose body is the empty object gets status 400 with the
error JSON body and leaves the stored sensor values and the last-update
timestamp unchanged; a request with no body at all also gets status 400,
with the no-data error JSON body and the state unchanged. -/
theorem update_sensor_empty_and_missing_body (toF : List Char → Rat)
    (toI : List Char → Int) (st : UpdState) (now : Nat) :
    handleUpdateSensor toF toI st (some (("\x7b\x7d").data)) now =
      (st, { status := 400, contentType := jsonCT, body := invalidBody })
    ∧ handleUpdateSensor toF toI st none now =
      (st, { status := 400, contentType := jsonCT, body := noDataBody }) :=
  ⟨rfl, rfl⟩

/-- C9 witness at a concrete stored state and timestamp. -/
theorem update_sensor_empty_and_missing_body_witness :
    handleUpdateSensor (fun _ => 0) (fun _ => 0)
        { sensor := { temperature := 25, humidity := 50, waterSensor := 0 },
          lastDataReceived := 5 }
        (some (("\x7b\x7d").data)) 42 =
      ({ sensor := { temperature := 25, humidity := 50, waterSensor := 0 },
          lastDataReceived := 5 },
       { status := 400, contentType := jsonCT, body := invalidBody }) :=
  (update_sensor_empty_and_missing_body (fun _ => 0) (fun _ => 0)
      { sensor := { temperature := 25, humidity := 50, waterSensor := 0 },
        lastDataReceived := 5 } 42).1

/-- C10: each sensor field whose key-and-delimiter pattern is not matched in
the body keeps exactly its previous stored value (whatever the response
status), and a 200 response implies the last-update timestamp was refreshed
to the request time and at least one field matched (so the timestamp is
refreshed exactly when a field was updated). -/
theorem update_sensor_unmatched_fields_preserved (toF : List Char → Rat)
    (toI : List Char → Int) (st : UpdState) (now : Nat) (body : List Char) :
    (tempHitB body = false →
      (handleUpdateSensor toF toI st (some body) now).1.sensor.temperature =
        st.sensor.temperature)
    ∧ (humHitB body = false →
      (handleUpdateSensor toF toI st (some body) now).1.sensor.humidity =
        st.sensor.humidity)
    ∧ (waterHitB body = false →
      (handleUpdateSensor toF toI st (some body) now).1.sensor.waterSensor =
        st.sensor.waterSensor)
    ∧ ((handleUpdateSensor toF toI st (some body) now).2.status = 200 →
      (handleUpdateSensor toF toI st (some body) now).1.lastDataReceived = now
      ∧ (tempHitB body || humHitB body || waterHitB body) = true) := by
  cases ht : tempHitB body <;> cases hh : humHitB body <;>
    cases hw : waterHitB body <;>
    simp [handleUpdateSensor, ht, hh, hw]

/-- C10 witness: a humidity-only body: temperature keeps its stored value
while the timestamp is refreshed by the 200 response. -/
theorem update_sensor_unmatched_fields_preserved_witness :
    tempHitB (("\x7b\"humidity\":60,\x7d").data) = false
    ∧ (handleUpdateSensor (fun _ => 7) (fun _ => 0)
        { sensor := { temperature := 25, humidity := 50, waterSensor := 0 },
          lastDataReceived := 0 }
        (some (("\x7b\"humidity\":60,\x7d").data)) 99).1.sensor.temperature = 25
    ∧ (handleUpdateSensor (fun _ => 7) (fun _ => 0)
        { sensor := { temperature := 25, humidity := 50, waterSensor := 0 },
          lastDataReceived := 0 }
        (some (("\x7b\"humidity\":60,\x7d").data)) 99).1.lastDataReceived = 99 :=
  ⟨by decide,
   (update_sensor_unmatched_fields_preserved (fun _ => 7) (fun _ => 0)
      { sensor := { temperature := 25, humidity := 50, waterSensor := 0 },
        lastDataReceived := 0 }
      99 (("\x7b\"humidity\":60,\x7d").data)).1 (by decide),
   ((update_sensor_unmatched_fields_preserved (fun _ => 7) (fun _ => 0)
      { sensor := { temperature := 25, humidity := 50, waterSensor := 0 },
        lastDataReceived := 0 }
      99 (("\x7b\"humidity\":60,\x7d").data)).2.2.2 (by decide)).1⟩

end Esp32Cam
